import Mathlib

/-!
Verification of the rpi-gpu-hub75-matrix language-interop boundary
(`matrix_wrapper.c` and `matrix_bindings.cpp`) against its specification.

The C/C++ source is shallowly embedded: the wrapper struct becomes a Lean
structure, byte buffers become `List Nat` (each element one byte), C `int`
values become `Int` with the C conversion to `uint8_t` made explicit as
reduction modulo 256, and calls into the external rendering library
(`default_scene`, `bcm_mapper`, `calculate_fps`, `render_forever`,
`pthread_create`, thread spawns) become explicit events or oracle
parameters.  A `NULL` pointer is `Option.none`.
-/

namespace Hub75

/-- Error taxonomy of the binding layer: `throw std::runtime_error` sites in
`matrix_bindings.cpp`, named as in the specification. -/
inductive MatrixError where
  | initError
  | startError
  | dimensionMismatchError
deriving DecidableEq, Repr

/-- The slice of the external renderer's `scene_info` that the wrapper code
touches: the hardware-facing image buffer (`scene->image`, possibly NULL). -/
structure SceneInfo where
  image : Option (List Nat)
deriving DecidableEq, Repr

/-- Embedding of `matrix_wrapper_t` from `matrix_wrapper.c`: scene pointer,
pixel buffer pointer, dimensions (C `int`), run flag and thread id
(`render_thread`, 0 meaning none). -/
structure MatrixWrapper where
  scene : Option SceneInfo
  pixel_buffer : Option (List Nat)
  width : Int
  height : Int
  running : Bool
  render_thread : Nat
deriving DecidableEq, Repr

/-- C conversion of an `int` channel value to `uint8_t`: reduction modulo
256 (well defined for negative values too). -/
def toByte (v : Int) : Nat := (v % 256).toNat

/-- Three consecutive byte stores at offset `i`: the effect of the three
assignments `pixel_buffer[index] = r; [index+1] = g; [index+2] = b`. -/
def store3 (buf : List Nat) (i : Nat) (r g b : Nat) : List Nat :=
  ((buf.set i r).set (i + 1) g).set (i + 2) b

/-- Embedding of `matrix_wrapper_set_pixel`: NULL checks on the wrapper and
on `pixel_buffer`, the bounds guard, then three byte stores at
`(y*width + x)*3`. -/
def matrix_wrapper_set_pixel (w : Option MatrixWrapper) (x y r g b : Int) :
    Option MatrixWrapper :=
  match w with
  | none => none
  | some wr =>
    match wr.pixel_buffer with
    | none => some wr
    | some buf =>
      if 0 ≤ x ∧ x < wr.width ∧ 0 ≤ y ∧ y < wr.height then
        let index := ((y * wr.width + x) * 3).toNat
        some { wr with pixel_buffer := some (store3 buf index (toByte r)
          (toByte g) (toByte b)) }
      else some wr


/-- Byte-wise model of C `memset(l, v, n)`: overwrite the first `n` bytes
of `l` with `v`. -/
def memset : List Nat → Nat → Nat → List Nat
  | l, _, 0 => l
  | [], _, _ + 1 => []
  | _ :: t, v, n + 1 => v :: memset t v n

/-- Embedding of `matrix_wrapper_clear`: NULL checks, `memset` of the pixel
buffer to zero over `width*height*3` bytes, and the same `memset` applied
to `scene->image` when the scene and its image buffer exist. -/
def matrix_wrapper_clear (w : Option MatrixWrapper) : Option MatrixWrapper :=
  match w with
  | none => none
  | some wr =>
    match wr.pixel_buffer with
    | none => some wr
    | some buf =>
      let n := (wr.width * wr.height * 3).toNat
      let wr2 := { wr with pixel_buffer := some (memset buf 0 n) }
      match wr.scene with
      | some sc =>
        match sc.image with
        | some img => some { wr2 with scene := some { sc with image := some (memset img 0 n) } }
        | none => some wr2
      | none => some wr2

/-- Observation of the FrameBuffer at `(x, y)` following the specified
layout `index(x,y) = (y*width + x)*3`: the stored RGB triple, or `none`
when the buffer is absent, the coordinates are out of bounds, or the
buffer is too short. -/
def frameBufferRead (wr : MatrixWrapper) (x y : Int) : Option (Nat × Nat × Nat) :=
  match wr.pixel_buffer with
  | none => none
  | some buf =>
    if 0 ≤ x ∧ x < wr.width ∧ 0 ≤ y ∧ y < wr.height then
      let index := ((y * wr.width + x) * 3).toNat
      match buf[index]?, buf[index + 1]?, buf[index + 2]? with
      | some rv, some gv, some bv => some (rv, gv, bv)
      | _, _, _ => none
    else none

/-- Embedding of `matrix_wrapper_get_width`: 0 on a NULL handle. -/
def matrix_wrapper_get_width (w : Option MatrixWrapper) : Int :=
  match w with
  | none => 0
  | some wr => wr.width

/-- Embedding of `matrix_wrapper_get_height`: 0 on a NULL handle. -/
def matrix_wrapper_get_height (w : Option MatrixWrapper) : Int :=
  match w with
  | none => 0
  | some wr => wr.height

/-- Embedding of `matrix_wrapper_is_running`: false on a NULL handle. -/
def matrix_wrapper_is_running (w : Option MatrixWrapper) : Bool :=
  match w with
  | none => false
  | some wr => wr.running

/-- Embedding of `matrix_wrapper_stop`: on a non-NULL handle, clear the
run flag and join/zero the render thread; a NULL handle is untouched. -/
def matrix_wrapper_stop (w : Option MatrixWrapper) : Option MatrixWrapper :=
  match w with
  | none => none
  | some wr => some { wr with running := false, render_thread := 0 }

/-- Embedding of `matrix_wrapper_destroy`: frees the scene, the pixel
buffer and the wrapper struct; returns immediately on a NULL handle.  The
handle value after the call is NULL either way. -/
def matrix_wrapper_destroy (w : Option MatrixWrapper) : Option MatrixWrapper :=
  match w with
  | none => none
  | some _ => none

/-- The two kinds of background threads the start path spawns. -/
inductive ThreadKind where
  | renderForeverThread
  | updateLoopThread
deriving DecidableEq, Repr

/-- Embedding of `matrix_wrapper_start`: NULL / already-running / NULL
scene checks, then `pthread_create` of the thread running
`render_forever` (`pthreadOk` is the oracle for its return code; on
failure the run flag is reset).  Returns the new state, the C `bool`
result, and the threads spawned. -/
def matrix_wrapper_start (pthreadOk : Bool) (w : Option MatrixWrapper) :
    Option MatrixWrapper × Bool × List ThreadKind :=
  match w with
  | none => (none, false, [])
  | some wr =>
    if wr.running then (some wr, false, [])
    else
      match wr.scene with
      | none => (some wr, false, [])
      | some _ =>
        if pthreadOk then
          (some { wr with running := true, render_thread := 1 }, true,
            [ThreadKind.renderForeverThread])
        else (some { wr with running := false }, false, [])

/-- Observable actions of one pass of the update path: the byte-for-byte
FrameBuffer copy (carrying the copied bytes), the external per-frame
mapping call (`scene->bcm_mapper`), the frame-rate accounting call
(`calculate_fps`), and a sleep in milliseconds. -/
inductive RenderEvent where
  | copyFrame (bytes : List Nat)
  | bcmMapperCall
  | calculateFpsCall
  | sleepMs (ms : Nat)
deriving DecidableEq, Repr

/-- C `memcpy(dest, src, n)` on byte buffers: the first `n` bytes of
`dest` replaced by the first `n` bytes of `src`. -/
def memcpyBytes (dest src : List Nat) (n : Nat) : List Nat :=
  src.take n ++ dest.drop n

/-- Embedding of `matrix_wrapper_update`: guard on NULL wrapper, cleared
run flag, NULL scene or NULL pixel buffer; then (when `scene->image`
exists) the `memcpy` of `width*height*3` bytes from the pixel buffer into
the image buffer, then the `bcm_mapper` and `calculate_fps` calls.
Returns the new state and the emitted events. -/
def matrix_wrapper_update (w : Option MatrixWrapper) :
    Option MatrixWrapper × List RenderEvent :=
  match w with
  | none => (none, [])
  | some wr =>
    if wr.running then
      match wr.scene, wr.pixel_buffer with
      | some sc, some buf =>
        let n := (wr.width * wr.height * 3).toNat
        match sc.image with
        | some img =>
          (some { wr with scene := some { sc with image := some (memcpyBytes img buf n) } },
            [RenderEvent.copyFrame (buf.take n), RenderEvent.bcmMapperCall,
              RenderEvent.calculateFpsCall])
        | none => (some wr, [RenderEvent.bcmMapperCall, RenderEvent.calculateFpsCall])
      | none, _ => (some wr, [])
      | some _, none => (some wr, [])
    else (some wr, [])

/-- One iteration of the update-loop thread body spawned by
`MatrixController::start`: while the controller run flag is true, one
`matrix_wrapper_update` followed by the fixed 16 ms sleep. -/
def update_loop_iteration (running : Bool) (w : Option MatrixWrapper) :
    Option MatrixWrapper × List RenderEvent :=
  if running then
    ((matrix_wrapper_update w).1,
      (matrix_wrapper_update w).2 ++ [RenderEvent.sleepMs 16])
  else (w, [])

/-- The `MatrixController` of `matrix_bindings.cpp`: the C wrapper handle
plus the controller's own atomic run flag (the `std::thread` handle is
modelled by the spawned-thread event lists). -/
structure MatrixController where
  wrapper : Option MatrixWrapper
  running : Bool
deriving DecidableEq, Repr

def MatrixController.get_width (c : MatrixController) : Int :=
  matrix_wrapper_get_width c.wrapper

def MatrixController.get_height (c : MatrixController) : Int :=
  matrix_wrapper_get_height c.wrapper

/-- `MatrixController::is_running`: true only when both the controller
flag and the wrapper flag agree. -/
def MatrixController.is_running (c : MatrixController) : Bool :=
  c.running && matrix_wrapper_is_running c.wrapper

def MatrixController.set_pixel (c : MatrixController) (x y r g b : Int) :
    MatrixController :=
  { c with wrapper := matrix_wrapper_set_pixel c.wrapper x y r g b }

/-- Embedding of `MatrixController::start`: early silent return when the
controller flag is already set; otherwise `matrix_wrapper_start` (which
spawns the `render_forever` pthread), a thrown `StartError` when it
reports failure, else the spawn of the C++ update-loop thread and the
flag set.  Returns the error, or the new state with the list of threads
spawned by the call. -/
def MatrixController.start (pthreadOk : Bool) (c : MatrixController) :
    Except MatrixError (MatrixController × List ThreadKind) :=
  if c.running then Except.ok (c, [])
  else
    if (matrix_wrapper_start pthreadOk c.wrapper).2.1 then
      Except.ok ({ wrapper := (matrix_wrapper_start pthreadOk c.wrapper).1, running := true },
        (matrix_wrapper_start pthreadOk c.wrapper).2.2 ++ [ThreadKind.updateLoopThread])
    else Except.error MatrixError.startError

/-- Embedding of `MatrixController::stop`: early return when the flag is
already false, else clear the flag, join the update-loop thread, and call
`matrix_wrapper_stop`. -/
def MatrixController.stop (c : MatrixController) : MatrixController :=
  if c.running then
    { wrapper := matrix_wrapper_stop c.wrapper, running := false }
  else c

/-- A pybind11 numpy pixel array of shape `(height, width, 3)` with flat
row-major byte data. -/
structure PixelArray where
  height : Nat
  width : Nat
  data : List Nat
deriving DecidableEq, Repr

/-- The nested copy loop of `MatrixController::set_pixels`: for each row
`y` and column `x` in order, one `set_pixel` call with the three source
bytes at index `(y*width + x)*3`. -/
def setPixelsLoop (c : MatrixController) (arr : PixelArray) : MatrixController :=
  (List.range arr.height).foldl (fun acc y =>
    (List.range arr.width).foldl (fun acc2 x =>
      acc2.set_pixel (Int.ofNat x) (Int.ofNat y)
        (Int.ofNat (arr.data.getD ((y * arr.width + x) * 3) 0))
        (Int.ofNat (arr.data.getD ((y * arr.width + x) * 3 + 1) 0))
        (Int.ofNat (arr.data.getD ((y * arr.width + x) * 3 + 2) 0))) acc) c

/-- Embedding of `MatrixController::set_pixels`: the dimension check that
throws `DimensionMismatchError` before any write, else the copy loop.
The result pairs the state with the thrown error, if any. -/
def MatrixController.set_pixels (c : MatrixController) (arr : PixelArray) :
    MatrixController × Option MatrixError :=
  if Int.ofNat arr.width ≠ c.get_width ∨ Int.ofNat arr.height ≠ c.get_height then
    (c, some MatrixError.dimensionMismatchError)
  else (setPixelsLoop c arr, none)

/-- Heap objects allocated on the `matrix_wrapper_create` path. -/
inductive Alloc where
  | wrapperStruct
  | pixelBuffer
  | argString (i : Nat)
  | sceneStruct
  | imageBuffer
deriving DecidableEq, Repr

/-- The argv slots filled with `malloc(32)` strings by
`matrix_wrapper_create` and freed (on the success path only) by its final
loop. -/
def argStringSlots : List Nat := [2, 4, 6, 8, 12, 14, 16, 18, 20, 22, 24, 26, 30]

def argStringAllocs : List Alloc := argStringSlots.map Alloc.argString

/-- Oracle for the external outcomes inside `matrix_wrapper_create`: the
two checked `malloc` results, the `default_scene` result (NULL, or a
scene whose `image` may be NULL), and the image-buffer `malloc` with its
contents. -/
structure CreateOracle where
  wrapperMallocOk : Bool
  pixelMallocOk : Bool
  pixelBytes : List Nat
  sceneResult : Option SceneInfo
  imageMallocOk : Bool
  imageBytes : List Nat
deriving DecidableEq, Repr

/-- Embedding of `matrix_wrapper_create`, instrumented with the list of
heap allocations still live when it returns.  It follows the source
order: wrapper malloc (freeing nothing on failure), pixel-buffer malloc
(freeing the wrapper on failure), the 13 `malloc(32)` argv strings,
`default_scene` (on NULL: free pixel buffer and wrapper, return), the
image-buffer malloc when the scene has no image (on failure: free pixel
buffer, scene and wrapper, return), and the final loop freeing the argv
strings, which is reached only on the success path. -/
def matrix_wrapper_create (o : CreateOracle) (width height : Int) :
    Option MatrixWrapper × List Alloc :=
  if ¬ o.wrapperMallocOk then (none, [])
  else if ¬ o.pixelMallocOk then (none, [])
  else
    match o.sceneResult with
    | none => (none, argStringAllocs)
    | some sc =>
      match sc.image with
      | some _ =>
        (some { scene := some sc, pixel_buffer := some o.pixelBytes,
                width := width, height := height, running := false,
                render_thread := 0 },
          [Alloc.wrapperStruct, Alloc.pixelBuffer, Alloc.sceneStruct])
      | none =>
        if o.imageMallocOk then
          (some { scene := some { sc with image := some o.imageBytes },
                  pixel_buffer := some o.pixelBytes, width := width,
                  height := height, running := false, render_thread := 0 },
            [Alloc.wrapperStruct, Alloc.pixelBuffer, Alloc.sceneStruct,
              Alloc.imageBuffer])
        else (none, argStringAllocs)


def wit5 : MatrixWrapper :=
  { scene := none, pixel_buffer := some [9, 9, 9, 9, 9, 9], width := 2,
    height := 1, running := false, render_thread := 0 }

def witc8 : MatrixWrapper :=
  { scene := some { image := some [7, 7, 7] }, pixel_buffer := some [5, 6, 7],
    width := 1, height := 1, running := false, render_thread := 0 }

/-- A concrete fresh wrapper with a scene and allocated buffers. -/
def witScene : MatrixWrapper :=
  { scene := some { image := some [0, 0, 0] }, pixel_buffer := some [0, 0, 0],
    width := 1, height := 1, running := false, render_thread := 0 }

/-- A concrete fresh (never started) controller. -/
def witFresh : MatrixController :=
  { wrapper := some witScene, running := false }

/-- A concrete controller on which start() has succeeded. -/
def witRunning : MatrixController :=
  { wrapper := some { witScene with running := true, render_thread := 1 },
    running := true }

/-- A concrete create oracle on which `default_scene` returns NULL. -/
def witOracle : CreateOracle :=
  { wrapperMallocOk := true, pixelMallocOk := true, pixelBytes := [0, 0, 0],
    sceneResult := none, imageMallocOk := true, imageBytes := [] }

/-- A concrete controller around `wit5`. -/
def witCtrl5 : MatrixController := { wrapper := some wit5, running := false }

/-- A concrete pixel array whose dimensions do not match `witFresh`. -/
def witArrMis : PixelArray := { height := 2, width := 2, data := [] }

/-- A concrete pixel array matching the 2×1 session `witCtrl5`. -/
def witArrOk : PixelArray := { height := 1, width := 2, data := [1, 2, 3, 4, 5, 6] }

theorem pixel_index_bound {w h x y : Int} (hx0 : 0 ≤ x) (hx1 : x < w)
    (hy0 : 0 ≤ y) (hy1 : y < h) :
    ((y * w + x) * 3).toNat + 2 < (w * h * 3).toNat := by
  have hw : 0 < w := lt_of_le_of_lt hx0 hx1
  have hyw : y * w ≤ (h - 1) * w := by
    have : y ≤ h - 1 := by omega
    exact mul_le_mul_of_nonneg_right this (le_of_lt hw)
  have h1 : 0 ≤ y * w + x := by positivity
  have h2 : (y * w + x) * 3 + 2 < w * h * 3 := by nlinarith
  omega

theorem set_pixel_result {wr : MatrixWrapper} {buf : List Nat} (x y r g b : Int)
    (hbuf : wr.pixel_buffer = some buf)
    (hx0 : 0 ≤ x) (hx1 : x < wr.width) (hy0 : 0 ≤ y) (hy1 : y < wr.height) :
    matrix_wrapper_set_pixel (some wr) x y r g b =
      some { wr with pixel_buffer := some (store3 buf
        (((y * wr.width + x) * 3).toNat) (toByte r) (toByte g) (toByte b)) } := by
  simp [matrix_wrapper_set_pixel, hbuf, hx0, hx1, hy0, hy1]

theorem read_after_set_pixel {wr : MatrixWrapper} {buf : List Nat}
    (x y r g b : Int) (hbuf : wr.pixel_buffer = some buf)
    (hlen : buf.length = (wr.width * wr.height * 3).toNat)
    (hx0 : 0 ≤ x) (hx1 : x < wr.width) (hy0 : 0 ≤ y) (hy1 : y < wr.height) :
    ∀ wr2, matrix_wrapper_set_pixel (some wr) x y r g b = some wr2 →
      frameBufferRead wr2 x y = some (toByte r, toByte g, toByte b) := by
  intro wr2 hset
  rw [set_pixel_result x y r g b hbuf hx0 hx1 hy0 hy1] at hset
  set i := ((y * wr.width + x) * 3).toNat with hi
  have hb : i + 2 < buf.length := by
    rw [hlen]; exact pixel_index_bound hx0 hx1 hy0 hy1
  have hwr2 : wr2 = { wr with pixel_buffer := some (store3 buf i (toByte r)
      (toByte g) (toByte b)) } := by
    exact (Option.some_injective _ hset).symm
  subst hwr2
  simp only [frameBufferRead, hx0, hx1, hy0, hy1, and_self, if_true]
  have e1 : (store3 buf i (toByte r) (toByte g) (toByte b))[i]? = some (toByte r) := by
    unfold store3
    rw [List.getElem?_set_ne (by omega), List.getElem?_set_ne (by omega)]
    exact List.getElem?_set_eq_of_lt _ (by omega)
  have e2 : (store3 buf i (toByte r) (toByte g) (toByte b))[i + 1]? = some (toByte g) := by
    unfold store3
    rw [List.getElem?_set_ne (by omega)]
    exact List.getElem?_set_eq_of_lt _ (by simp; omega)
  have e3 : (store3 buf i (toByte r) (toByte g) (toByte b))[i + 2]? = some (toByte b) := by
    unfold store3
    exact List.getElem?_set_eq_of_lt _ (by simp; omega)
  simp [e1, e2, e3]

/-- C5: for in-bounds `(x, y)` and byte-range channel values, `SetPixel`
stores the triple at FrameBuffer offset `(y*width + x)*3` and a subsequent
FrameBuffer read at `(x, y)` returns exactly `(r, g, b)`. -/
theorem set_pixel_in_bounds_stores_and_reads_back
    {wr : MatrixWrapper} {buf : List Nat} (x y r g b : Int)
    (hbuf : wr.pixel_buffer = some buf)
    (hlen : buf.length = (wr.width * wr.height * 3).toNat)
    (hx0 : 0 ≤ x) (hx1 : x < wr.width) (hy0 : 0 ≤ y) (hy1 : y < wr.height)
    (hr0 : 0 ≤ r) (hr1 : r < 256) (hg0 : 0 ≤ g) (hg1 : g < 256)
    (hb0 : 0 ≤ b) (hb1 : b < 256) :
    matrix_wrapper_set_pixel (some wr) x y r g b =
      some { wr with pixel_buffer := some (store3 buf
        (((y * wr.width + x) * 3).toNat) r.toNat g.toNat b.toNat) } ∧
    ∀ wr2, matrix_wrapper_set_pixel (some wr) x y r g b = some wr2 →
      frameBufferRead wr2 x y = some (r.toNat, g.toNat, b.toNat) := by
  have hr : toByte r = r.toNat := by unfold toByte; omega
  have hg : toByte g = g.toNat := by unfold toByte; omega
  have hb : toByte b = b.toNat := by unfold toByte; omega
  constructor
  · have := set_pixel_result x y r g b hbuf hx0 hx1 hy0 hy1
    rw [hr, hg, hb] at this
    exact this
  · intro wr2 hset
    have := read_after_set_pixel x y r g b hbuf hlen hx0 hx1 hy0 hy1 wr2 hset
    rw [hr, hg, hb] at this
    exact this

theorem set_pixel_in_bounds_stores_and_reads_back_witness :
    matrix_wrapper_set_pixel (some wit5) 1 0 10 20 30 =
      some { wit5 with pixel_buffer := some (store3 [9, 9, 9, 9, 9, 9]
        ((((0 : Int) * wit5.width + 1) * 3).toNat) (Int.toNat 10)
        (Int.toNat 20) (Int.toNat 30)) } ∧
    ∀ wr2, matrix_wrapper_set_pixel (some wit5) 1 0 10 20 30 = some wr2 →
      frameBufferRead wr2 1 0 = some (Int.toNat 10, Int.toNat 20, Int.toNat 30) :=
  set_pixel_in_bounds_stores_and_reads_back 1 0 10 20 30 (by rfl) (by decide)
    (by decide) (by decide) (by decide) (by decide) (by decide) (by decide)
    (by decide) (by decide) (by decide) (by decide)

/-- C6: for every out-of-bounds `(x, y)`, `SetPixel` is a no-op: it raises
no error and leaves the wrapper state, hence every byte of the
FrameBuffer, unchanged. -/
theorem set_pixel_out_of_bounds_noop (wr : MatrixWrapper) (x y r g b : Int)
    (h : x < 0 ∨ wr.width ≤ x ∨ y < 0 ∨ wr.height ≤ y) :
    matrix_wrapper_set_pixel (some wr) x y r g b = some wr := by
  have hcond : ¬ (0 ≤ x ∧ x < wr.width ∧ 0 ≤ y ∧ y < wr.height) := by omega
  unfold matrix_wrapper_set_pixel
  cases hbuf : wr.pixel_buffer with
  | none => simp [hbuf]
  | some buf => simp [hbuf, hcond]

theorem set_pixel_out_of_bounds_noop_witness :
    matrix_wrapper_set_pixel (some wit5) 2 0 10 20 30 = some wit5 :=
  set_pixel_out_of_bounds_noop wit5 2 0 10 20 30 (by decide)

/-- C9: for in-bounds `(x, y)` and arbitrary `int` channel values, the byte
stored for each channel is the value reduced modulo 256, and the
subsequent read returns those reduced bytes. -/
theorem set_pixel_truncates_channels_mod_256
    {wr : MatrixWrapper} {buf : List Nat} (x y r g b : Int)
    (hbuf : wr.pixel_buffer = some buf)
    (hlen : buf.length = (wr.width * wr.height * 3).toNat)
    (hx0 : 0 ≤ x) (hx1 : x < wr.width) (hy0 : 0 ≤ y) (hy1 : y < wr.height) :
    matrix_wrapper_set_pixel (some wr) x y r g b =
      some { wr with pixel_buffer := some (store3 buf
        (((y * wr.width + x) * 3).toNat) ((r % 256).toNat)
        ((g % 256).toNat) ((b % 256).toNat)) } ∧
    ∀ wr2, matrix_wrapper_set_pixel (some wr) x y r g b = some wr2 →
      frameBufferRead wr2 x y =
        some ((r % 256).toNat, (g % 256).toNat, (b % 256).toNat) := by
  exact ⟨set_pixel_result x y r g b hbuf hx0 hx1 hy0 hy1,
    read_after_set_pixel x y r g b hbuf hlen hx0 hx1 hy0 hy1⟩

theorem set_pixel_truncates_channels_mod_256_witness :
    matrix_wrapper_set_pixel (some wit5) 0 0 300 (-1) 256 =
      some { wit5 with pixel_buffer := some (store3 [9, 9, 9, 9, 9, 9]
        ((((0 : Int) * wit5.width + 0) * 3).toNat) (((300 : Int) % 256).toNat)
        (((-1 : Int) % 256).toNat) (((256 : Int) % 256).toNat)) } ∧
    ∀ wr2, matrix_wrapper_set_pixel (some wit5) 0 0 300 (-1) 256 = some wr2 →
      frameBufferRead wr2 0 0 =
        some (((300 : Int) % 256).toNat, (((-1) : Int) % 256).toNat,
          (((256) : Int) % 256).toNat) :=
  set_pixel_truncates_channels_mod_256 0 0 300 (-1) 256 (by rfl) (by decide)
    (by decide) (by decide) (by decide) (by decide)


theorem memset_length (l : List Nat) (v n : Nat) :
    (memset l v n).length = l.length := by
  induction l generalizing n with
  | nil => cases n <;> simp [memset]
  | cons a t ih =>
    cases n with
    | zero => simp [memset]
    | succ m => simp [memset, ih]

theorem getElem?_memset (l : List Nat) (v n i : Nat) :
    (memset l v n)[i]? = if i < n ∧ i < l.length then some v else l[i]? := by
  induction l generalizing n i with
  | nil => cases n <;> simp [memset]
  | cons a t ih =>
    cases n with
    | zero => simp [memset]
    | succ m =>
      cases i with
      | zero => simp [memset]
      | succ j =>
        simp only [memset, List.getElem?_cons_succ, ih]
        have hpq : (j < m ∧ j < t.length) ↔
            (j + 1 < m + 1 ∧ j + 1 < (a :: t).length) := by
          simp only [List.length_cons]; omega
        rw [if_congr hpq rfl rfl]

theorem memset_idem (l : List Nat) (v n : Nat) :
    memset (memset l v n) v n = memset l v n := by
  induction l generalizing n with
  | nil => cases n <;> simp [memset]
  | cons a t ih =>
    cases n with
    | zero => simp [memset]
    | succ m => simp [memset, ih]

theorem clear_pixel_buffer_and_dims {wr : MatrixWrapper} {buf : List Nat}
    (hbuf : wr.pixel_buffer = some buf) :
    ∀ wr2, matrix_wrapper_clear (some wr) = some wr2 →
      wr2.pixel_buffer = some (memset buf 0 ((wr.width * wr.height * 3).toNat)) ∧
      wr2.width = wr.width ∧ wr2.height = wr.height := by
  intro wr2 hclear
  cases hsc : wr.scene with
  | none =>
    simp only [matrix_wrapper_clear, hbuf, hsc, Option.some_inj] at hclear
    subst hclear; simp
  | some sc =>
    cases himg : sc.image with
    | none =>
      simp only [matrix_wrapper_clear, hbuf, hsc, himg, Option.some_inj] at hclear
      subst hclear; simp
    | some img =>
      simp only [matrix_wrapper_clear, hbuf, hsc, himg, Option.some_inj] at hclear
      subst hclear; simp

/-- C8 counterexample: `matrix_wrapper_clear` has no color parameter; it
always fills the FrameBuffer with black.  At a concrete 1×1 session the
pixel read after a clear is `(0, 0, 0)`, not the arbitrary color
`(1, 2, 3)` the claim quantifies over. -/
theorem clear_produces_black_not_arbitrary_color :
    (matrix_wrapper_clear (some witc8)).bind (fun wr2 => frameBufferRead wr2 0 0) =
      some (0, 0, 0) ∧
    some ((0 : Nat), (0 : Nat), (0 : Nat)) ≠ some ((1 : Nat), (2 : Nat), (3 : Nat)) := by
  decide

/-- C8 (amended): `Clear` takes no color argument and always fills with
black: after a clear every in-bounds position reads `(0, 0, 0)`; clear is
idempotent; and when the scene's HardwareImageBuffer is allocated, its
first `width*height*3` bytes are zeroed in the same call. -/
theorem clear_fills_black_idempotent_and_clears_image
    (wr : MatrixWrapper) (buf : List Nat)
    (hbuf : wr.pixel_buffer = some buf)
    (hlen : buf.length = (wr.width * wr.height * 3).toNat) :
    (∀ x y wr2, matrix_wrapper_clear (some wr) = some wr2 →
      0 ≤ x → x < wr.width → 0 ≤ y → y < wr.height →
      frameBufferRead wr2 x y = some (0, 0, 0)) ∧
    matrix_wrapper_clear (matrix_wrapper_clear (some wr)) =
      matrix_wrapper_clear (some wr) ∧
    (∀ sc img, wr.scene = some sc → sc.image = some img →
      ∀ wr2, matrix_wrapper_clear (some wr) = some wr2 →
        wr2.scene = some { sc with image := some (memset img 0
          ((wr.width * wr.height * 3).toNat)) }) := by
  refine ⟨?_, ?_, ?_⟩
  · intro x y wr2 hclear hx0 hx1 hy0 hy1
    obtain ⟨hpix, hww, hhh⟩ := clear_pixel_buffer_and_dims hbuf wr2 hclear
    have hib := pixel_index_bound hx0 hx1 hy0 hy1
    set n := (wr.width * wr.height * 3).toNat with hn
    set i := ((y * wr.width + x) * 3).toNat with hi
    have hlen2 : (memset buf 0 n).length = buf.length := memset_length buf 0 n
    have hcond : 0 ≤ x ∧ x < wr2.width ∧ 0 ≤ y ∧ y < wr2.height := by
      rw [hww, hhh]; exact ⟨hx0, hx1, hy0, hy1⟩
    have hidx : ((y * wr2.width + x) * 3).toNat = i := by rw [hww]
    have g0 : (memset buf 0 n)[i]? = some 0 := by
      rw [getElem?_memset]
      have : i < n ∧ i < buf.length := by omega
      simp [this]
    have g1 : (memset buf 0 n)[i + 1]? = some 0 := by
      rw [getElem?_memset]
      have : i + 1 < n ∧ i + 1 < buf.length := by omega
      simp [this]
    have g2 : (memset buf 0 n)[i + 2]? = some 0 := by
      rw [getElem?_memset]
      have : i + 2 < n ∧ i + 2 < buf.length := by omega
      simp [this]
    simp only [frameBufferRead, hpix, hcond, and_self, if_true, hidx, g0, g1, g2]
  · cases hsc : wr.scene with
    | none => simp [matrix_wrapper_clear, hbuf, hsc, memset_idem, memset_length]
    | some sc =>
      cases himg : sc.image with
      | none => simp [matrix_wrapper_clear, hbuf, hsc, himg, memset_idem, memset_length]
      | some img => simp [matrix_wrapper_clear, hbuf, hsc, himg, memset_idem, memset_length]
  · intro sc img hsc himg wr2 hclear
    simp only [matrix_wrapper_clear, hbuf, hsc, himg, Option.some_inj] at hclear
    subst hclear
    rfl

/-- Witness for the amended C8 theorem at a concrete 1×1 session. -/
theorem clear_fills_black_idempotent_and_clears_image_witness :
    (∀ x y wr2, matrix_wrapper_clear (some witc8) = some wr2 →
      0 ≤ x → x < witc8.width → 0 ≤ y → y < witc8.height →
      frameBufferRead wr2 x y = some (0, 0, 0)) ∧
    matrix_wrapper_clear (matrix_wrapper_clear (some witc8)) =
      matrix_wrapper_clear (some witc8) ∧
    (∀ sc img, witc8.scene = some sc → sc.image = some img →
      ∀ wr2, matrix_wrapper_clear (some witc8) = some wr2 →
        wr2.scene = some { sc with image := some (memset img 0
          ((witc8.width * witc8.height * 3).toNat)) }) :=
  clear_fills_black_idempotent_and_clears_image witc8 [5, 6, 7] (by rfl) (by decide)

/-- C10: every C-level wrapper operation is total on a NULL handle:
`get_width` and `get_height` return 0, `is_running` returns false,
`set_pixel`, `clear`, `stop` and `destroy` leave the (absent) state
unchanged, and `start` returns false having spawned nothing. -/
theorem null_handle_operations_total (x y r g b : Int) (pthreadOk : Bool) :
    matrix_wrapper_get_width none = 0 ∧
    matrix_wrapper_get_height none = 0 ∧
    matrix_wrapper_is_running none = false ∧
    matrix_wrapper_set_pixel none x y r g b = none ∧
    matrix_wrapper_clear none = none ∧
    matrix_wrapper_stop none = none ∧
    matrix_wrapper_destroy none = none ∧
    matrix_wrapper_start pthreadOk none = (none, false, []) :=
  ⟨rfl, rfl, rfl, rfl, rfl, rfl, rfl, rfl⟩

/-- C3: teardown never fails: stop() on an already-stopped session is a
no-op leaving the state unchanged; after any stop() is_running() is
false; and destroy on an already-torn-down (NULL) handle is a no-op,
destroy being idempotent on every handle. -/
theorem stop_noop_when_stopped_and_destroy_idempotent
    (c1 : MatrixController) (h1 : c1.running = false) (c2 : MatrixController) :
    MatrixController.stop c1 = c1 ∧
    MatrixController.is_running (MatrixController.stop c2) = false ∧
    matrix_wrapper_destroy none = none ∧
    matrix_wrapper_destroy (matrix_wrapper_destroy c2.wrapper) =
      matrix_wrapper_destroy c2.wrapper := by
  refine ⟨?_, ?_, rfl, ?_⟩
  · simp [MatrixController.stop, h1]
  · by_cases hc : c2.running <;>
      simp [MatrixController.stop, MatrixController.is_running,
        matrix_wrapper_is_running, matrix_wrapper_stop, hc]
  · cases c2.wrapper <;> rfl

/-- Witness for the C3 theorem at concrete controllers. -/
theorem stop_noop_when_stopped_and_destroy_idempotent_witness :
    MatrixController.stop witFresh = witFresh ∧
    MatrixController.is_running (MatrixController.stop witRunning) = false ∧
    matrix_wrapper_destroy none = none ∧
    matrix_wrapper_destroy (matrix_wrapper_destroy witRunning.wrapper) =
      matrix_wrapper_destroy witRunning.wrapper :=
  stop_noop_when_stopped_and_destroy_idempotent witFresh (by decide) witRunning

/-- C2 counterexample: on a concrete session where start() has succeeded
and stop() has not been called, a second start() returns success without
spawning a thread instead of failing with StartError. -/
theorem second_start_silent_noop_not_error :
    MatrixController.start true witRunning = Except.ok (witRunning, []) ∧
    ∀ e : MatrixError, MatrixController.start true witRunning ≠ Except.error e := by
  constructor
  · rfl
  · intro e h
    rw [show MatrixController.start true witRunning = Except.ok (witRunning, [])
      from rfl] at h
    exact Except.noConfusion h

/-- C2 (amended): a second start() while running is a silent no-op — it
returns success immediately and spawns no second thread; on a fresh
session with a valid scene (and `pthread_create` succeeding) start()
succeeds and is_running() becomes true. -/
theorem start_twice_noop_and_fresh_start_succeeds
    (c1 : MatrixController) (h1 : c1.running = true)
    (c2 : MatrixController) (wr : MatrixWrapper) (sc : SceneInfo)
    (h2 : c2.running = false) (hw : c2.wrapper = some wr)
    (hrun : wr.running = false) (hsc : wr.scene = some sc) :
    MatrixController.start true c1 = Except.ok (c1, []) ∧
    ∃ c3, MatrixController.start true c2 =
        Except.ok (c3, [ThreadKind.renderForeverThread, ThreadKind.updateLoopThread]) ∧
      c3.is_running = true := by
  constructor
  · simp [MatrixController.start, h1]
  · refine ⟨{ wrapper := some { wr with running := true, render_thread := 1 },
              running := true }, ?_, ?_⟩
    · simp [MatrixController.start, matrix_wrapper_start, h2, hw, hrun, hsc]
    · simp [MatrixController.is_running, matrix_wrapper_is_running]

/-- Witness for the amended C2 theorem at concrete controllers. -/
theorem start_twice_noop_and_fresh_start_succeeds_witness :
    MatrixController.start true witRunning = Except.ok (witRunning, []) ∧
    ∃ c3, MatrixController.start true witFresh =
        Except.ok (c3, [ThreadKind.renderForeverThread, ThreadKind.updateLoopThread]) ∧
      c3.is_running = true :=
  start_twice_noop_and_fresh_start_succeeds witRunning (by decide) witFresh
    witScene { image := some [0, 0, 0] } (by decide) (by rfl) (by decide) (by rfl)

/-- C1 counterexample: on a concrete idle session, start() spawns two
background threads — the `render_forever` pthread created inside
`matrix_wrapper_start` and the C++ update-loop thread — not exactly one. -/
theorem start_spawns_two_threads_not_one :
    MatrixController.start true witFresh =
      Except.ok ({ wrapper := some { witScene with running := true, render_thread := 1 },
                   running := true },
        [ThreadKind.renderForeverThread, ThreadKind.updateLoopThread]) ∧
    ([ThreadKind.renderForeverThread, ThreadKind.updateLoopThread] : List ThreadKind).length ≠ 1 := by
  exact ⟨rfl, by decide⟩

/-- C1 (amended): on an idle session start() spawns exactly two background
threads (the `render_forever` pthread and the update-loop thread), and
each iteration of the update-loop thread while the run flag is true
performs in order: a byte-for-byte copy of the FrameBuffer
(`width*height*3` bytes, no transformation) into the HardwareImageBuffer,
the external per-frame mapping call, the frame-rate accounting call, and
a fixed 16 ms sleep. -/
theorem start_spawns_two_threads_and_update_loop_order
    (c : MatrixController) (wr : MatrixWrapper) (sc : SceneInfo)
    (hc : c.running = false) (hw : c.wrapper = some wr) (hrun : wr.running = false)
    (hsc : wr.scene = some sc)
    (wr2 : MatrixWrapper) (sc2 : SceneInfo) (buf img : List Nat)
    (h2run : wr2.running = true) (h2sc : wr2.scene = some sc2)
    (h2buf : wr2.pixel_buffer = some buf) (h2img : sc2.image = some img)
    (hblen : buf.length = (wr2.width * wr2.height * 3).toNat)
    (hilen : img.length = (wr2.width * wr2.height * 3).toNat) :
    (∃ c3, MatrixController.start true c =
      Except.ok (c3, [ThreadKind.renderForeverThread, ThreadKind.updateLoopThread])) ∧
    update_loop_iteration true (some wr2) =
      (some { wr2 with scene := some { sc2 with image := some buf } },
        [RenderEvent.copyFrame buf, RenderEvent.bcmMapperCall,
          RenderEvent.calculateFpsCall, RenderEvent.sleepMs 16]) := by
  constructor
  · exact ⟨{ wrapper := some { wr with running := true, render_thread := 1 },
             running := true },
      by simp [MatrixController.start, matrix_wrapper_start, hc, hw, hrun, hsc]⟩
  · have hcopy : memcpyBytes img buf ((wr2.width * wr2.height * 3).toNat) = buf := by
      unfold memcpyBytes
      rw [← hblen, List.take_length,
        show buf.length = img.length from hblen.trans hilen.symm,
        List.drop_length, List.append_nil]
    have htake : buf.take ((wr2.width * wr2.height * 3).toNat) = buf := by
      rw [← hblen, List.take_length]
    simp only [update_loop_iteration, matrix_wrapper_update, h2run, h2sc, h2buf,
      h2img, if_true, hcopy, htake, List.cons_append, List.nil_append]

/-- Witness for the amended C1 theorem at a concrete 1×1 session. -/
theorem start_spawns_two_threads_and_update_loop_order_witness :
    (∃ c3, MatrixController.start true witFresh =
      Except.ok (c3, [ThreadKind.renderForeverThread, ThreadKind.updateLoopThread])) ∧
    update_loop_iteration true (some { witScene with running := true, render_thread := 1 }) =
      (some { { witScene with running := true, render_thread := 1 } with
          scene := some { SceneInfo.mk (some [0, 0, 0]) with image := some [0, 0, 0] } },
        [RenderEvent.copyFrame [0, 0, 0], RenderEvent.bcmMapperCall,
          RenderEvent.calculateFpsCall, RenderEvent.sleepMs 16]) :=
  start_spawns_two_threads_and_update_loop_order witFresh witScene
    { image := some [0, 0, 0] } (by decide) (by rfl) (by decide) (by rfl)
    { witScene with running := true, render_thread := 1 }
    { image := some [0, 0, 0] } [0, 0, 0] [0, 0, 0]
    (by decide) (by rfl) (by rfl) (by rfl) (by decide) (by decide)

/-- C4: at a configuration where the external initializer (`default_scene`)
returns NULL, `matrix_wrapper_create` returns NULL — surfaced as InitError
by the binding — but the 13 heap-allocated argv strings are still live:
the code leaks them instead of releasing every allocation made before the
failure point. -/
theorem create_failure_retains_arg_string_allocations :
    matrix_wrapper_create witOracle 64 32 = (none, argStringAllocs) ∧
    argStringAllocs ≠ [] ∧ argStringAllocs.length = 13 := by
  refine ⟨rfl, by decide, by decide⟩

theorem toByte_ofNat_of_lt {v : Nat} (h : v < 256) : toByte (Int.ofNat v) = v := by
  unfold toByte
  simp only [Int.ofNat_eq_natCast]
  omega

theorem mix_set (D B : List Nat) (j : Nat) (hD : j < D.length) (hB : j < B.length) :
    (D.take j ++ B.drop j).set j (D.getD j 0) = D.take (j + 1) ++ B.drop (j + 1) := by
  have hlen : (D.take j).length = j := by simp; omega
  rw [List.set_append, hlen, if_neg (lt_irrefl j), Nat.sub_self,
    List.drop_eq_getElem_cons hB, List.set_cons_zero,
    List.getD_eq_getElem D 0 hD, ← List.take_concat_get D j hD,
    List.concat_eq_append, List.append_assoc, List.singleton_append]

theorem mix_store3 (D B : List Nat) (j : Nat)
    (hD : j + 2 < D.length) (hB : j + 2 < B.length) :
    store3 (D.take j ++ B.drop j) j (D.getD j 0) (D.getD (j + 1) 0) (D.getD (j + 2) 0) =
      D.take (j + 3) ++ B.drop (j + 3) := by
  unfold store3
  rw [mix_set D B j (by omega) (by omega),
    mix_set D B (j + 1) (by omega) (by omega),
    mix_set D B (j + 2) (by omega) (by omega)]

theorem set_pixel_controller_mix_step (arr : PixelArray) (c : MatrixController)
    (wr : MatrixWrapper) (B : List Nat)
    (hsmall : ∀ i, i < arr.data.length → arr.data.getD i 0 < 256)
    (hww : wr.width = Int.ofNat arr.width) (hhh : wr.height = Int.ofNat arr.height)
    (hD : arr.data.length = arr.width * arr.height * 3)
    (hB : B.length = arr.width * arr.height * 3)
    (x y : Nat) (hx : x < arr.width) (hy : y < arr.height) :
    MatrixController.set_pixel
      { c with wrapper := some { wr with pixel_buffer := some (arr.data.take
          ((y * arr.width + x) * 3) ++ B.drop ((y * arr.width + x) * 3)) } }
      (Int.ofNat x) (Int.ofNat y)
      (Int.ofNat (arr.data.getD ((y * arr.width + x) * 3) 0))
      (Int.ofNat (arr.data.getD ((y * arr.width + x) * 3 + 1) 0))
      (Int.ofNat (arr.data.getD ((y * arr.width + x) * 3 + 2) 0)) =
    { c with wrapper := some { wr with pixel_buffer := some (arr.data.take
        ((y * arr.width + x + 1) * 3) ++ B.drop ((y * arr.width + x + 1) * 3)) } } := by
  have hwh : y * arr.width + x + 1 ≤ arr.width * arr.height := by nlinarith
  have hjD : (y * arr.width + x) * 3 + 2 < arr.data.length := by rw [hD]; nlinarith
  have hjB : (y * arr.width + x) * 3 + 2 < B.length := by rw [hB]; nlinarith
  have hx0 : (0 : Int) ≤ Int.ofNat x := by simp [Int.ofNat_eq_natCast]
  have hy0 : (0 : Int) ≤ Int.ofNat y := by simp [Int.ofNat_eq_natCast]
  have hx1 : Int.ofNat x < wr.width := by
    rw [hww]; simp only [Int.ofNat_eq_natCast]; exact_mod_cast hx
  have hy1 : Int.ofNat y < wr.height := by
    rw [hhh]; simp only [Int.ofNat_eq_natCast]; exact_mod_cast hy
  have hidx : ((Int.ofNat y * wr.width + Int.ofNat x) * 3).toNat =
      (y * arr.width + x) * 3 := by
    rw [hww]
    have h : (Int.ofNat y * Int.ofNat arr.width + Int.ofNat x) * 3 =
        Int.ofNat ((y * arr.width + x) * 3) := by
      simp only [Int.ofNat_eq_natCast]
      push_cast
      ring
    rw [h]
    rfl
  have hres := @set_pixel_result
    { wr with pixel_buffer := some (arr.data.take ((y * arr.width + x) * 3)
      ++ B.drop ((y * arr.width + x) * 3)) }
    (arr.data.take ((y * arr.width + x) * 3) ++ B.drop ((y * arr.width + x) * 3))
    (Int.ofNat x) (Int.ofNat y)
    (Int.ofNat (arr.data.getD ((y * arr.width + x) * 3) 0))
    (Int.ofNat (arr.data.getD ((y * arr.width + x) * 3 + 1) 0))
    (Int.ofNat (arr.data.getD ((y * arr.width + x) * 3 + 2) 0))
    rfl hx0 hx1 hy0 hy1
  simp only [MatrixController.set_pixel]
  rw [hres]
  simp only [hidx,
    toByte_ofNat_of_lt (hsmall ((y * arr.width + x) * 3) (by omega)),
    toByte_ofNat_of_lt (hsmall ((y * arr.width + x) * 3 + 1) (by omega)),
    toByte_ofNat_of_lt (hsmall ((y * arr.width + x) * 3 + 2) (by omega)),
    mix_store3 arr.data B ((y * arr.width + x) * 3) hjD hjB]
  have h3 : (y * arr.width + x) * 3 + 3 = (y * arr.width + x + 1) * 3 := by ring
  rw [h3]

theorem setPixels_inner_loop (arr : PixelArray) (c : MatrixController)
    (wr : MatrixWrapper) (B : List Nat)
    (hsmall : ∀ i, i < arr.data.length → arr.data.getD i 0 < 256)
    (hww : wr.width = Int.ofNat arr.width) (hhh : wr.height = Int.ofNat arr.height)
    (hD : arr.data.length = arr.width * arr.height * 3)
    (hB : B.length = arr.width * arr.height * 3)
    (y : Nat) (hy : y < arr.height) :
    ∀ k, k ≤ arr.width →
      (List.range k).foldl (fun acc2 x =>
        acc2.set_pixel (Int.ofNat x) (Int.ofNat y)
          (Int.ofNat (arr.data.getD ((y * arr.width + x) * 3) 0))
          (Int.ofNat (arr.data.getD ((y * arr.width + x) * 3 + 1) 0))
          (Int.ofNat (arr.data.getD ((y * arr.width + x) * 3 + 2) 0)))
        { c with wrapper := some { wr with pixel_buffer := some (arr.data.take
            ((y * arr.width + 0) * 3) ++ B.drop ((y * arr.width + 0) * 3)) } } =
      { c with wrapper := some { wr with pixel_buffer := some (arr.data.take
          ((y * arr.width + k) * 3) ++ B.drop ((y * arr.width + k) * 3)) } } := by
  intro k
  induction k with
  | zero => intro _; rfl
  | succ m ih =>
    intro hk
    rw [List.range_succ, List.foldl_append, ih (by omega)]
    simp only [List.foldl_cons, List.foldl_nil]
    exact set_pixel_controller_mix_step arr c wr B hsmall hww hhh hD hB m y
      (by omega) hy

theorem setPixels_outer_loop (arr : PixelArray) (c : MatrixController)
    (wr : MatrixWrapper) (B : List Nat)
    (hsmall : ∀ i, i < arr.data.length → arr.data.getD i 0 < 256)
    (hww : wr.width = Int.ofNat arr.width) (hhh : wr.height = Int.ofNat arr.height)
    (hD : arr.data.length = arr.width * arr.height * 3)
    (hB : B.length = arr.width * arr.height * 3) :
    ∀ m, m ≤ arr.height →
      (List.range m).foldl (fun acc y =>
        (List.range arr.width).foldl (fun acc2 x =>
          acc2.set_pixel (Int.ofNat x) (Int.ofNat y)
            (Int.ofNat (arr.data.getD ((y * arr.width + x) * 3) 0))
            (Int.ofNat (arr.data.getD ((y * arr.width + x) * 3 + 1) 0))
            (Int.ofNat (arr.data.getD ((y * arr.width + x) * 3 + 2) 0))) acc)
        { c with wrapper := some { wr with pixel_buffer := some (arr.data.take
            ((0 * arr.width + 0) * 3) ++ B.drop ((0 * arr.width + 0) * 3)) } } =
      { c with wrapper := some { wr with pixel_buffer := some (arr.data.take
          ((m * arr.width + 0) * 3) ++ B.drop ((m * arr.width + 0) * 3)) } } := by
  intro m
  induction m with
  | zero => intro _; rfl
  | succ p ih =>
    intro hm
    rw [List.range_succ, List.foldl_append, ih (by omega)]
    simp only [List.foldl_cons, List.foldl_nil]
    have hrow := setPixels_inner_loop arr c wr B hsmall hww hhh hD hB p
      (by omega) arr.width (le_refl arr.width)
    rw [hrow]
    have h1 : (p * arr.width + arr.width) * 3 = ((p + 1) * arr.width + 0) * 3 := by
      ring
    rw [h1]

/-- C7: set_pixels with an array whose declared width or height differs
from the session's fails with DimensionMismatchError leaving the state
(hence every FrameBuffer byte) unmodified; with matching dimensions it
succeeds and, performing one set_pixel per position, leaves the
FrameBuffer holding exactly the array's bytes. -/
theorem set_pixels_mismatch_error_and_matching_copy
    (c1 : MatrixController) (arr1 : PixelArray)
    (hmis : Int.ofNat arr1.width ≠ c1.get_width ∨
      Int.ofNat arr1.height ≠ c1.get_height)
    (c2 : MatrixController) (wr : MatrixWrapper) (B : List Nat) (arr2 : PixelArray)
    (hw : c2.wrapper = some wr) (hbuf : wr.pixel_buffer = some B)
    (hww : wr.width = Int.ofNat arr2.width) (hhh : wr.height = Int.ofNat arr2.height)
    (hD : arr2.data.length = arr2.width * arr2.height * 3)
    (hB : B.length = arr2.width * arr2.height * 3)
    (hsmall : ∀ i, i < arr2.data.length → arr2.data.getD i 0 < 256) :
    MatrixController.set_pixels c1 arr1 =
      (c1, some MatrixError.dimensionMismatchError) ∧
    MatrixController.set_pixels c2 arr2 =
      ({ c2 with wrapper := some { wr with pixel_buffer := some arr2.data } },
        none) := by
  constructor
  · unfold MatrixController.set_pixels
    rw [if_pos hmis]
  · have hgw : c2.get_width = Int.ofNat arr2.width := by
      simp [MatrixController.get_width, matrix_wrapper_get_width, hw, hww]
    have hgh : c2.get_height = Int.ofNat arr2.height := by
      simp [MatrixController.get_height, matrix_wrapper_get_height, hw, hhh]
    have hcond : ¬ (Int.ofNat arr2.width ≠ c2.get_width ∨
        Int.ofNat arr2.height ≠ c2.get_height) := by
      simp [hgw, hgh]
    simp only [MatrixController.set_pixels, hcond, if_false, if_neg hcond]
    have hinit : { c2 with wrapper := some { wr with pixel_buffer := some (arr2.data.take
        ((0 * arr2.width + 0) * 3) ++ B.drop ((0 * arr2.width + 0) * 3)) } } = c2 := by
      have h0 : (0 * arr2.width + 0) * 3 = 0 := by ring
      rw [h0, List.take_zero, List.drop_zero, List.nil_append, ← hbuf, ← hw]
    have hfin := setPixels_outer_loop arr2 c2 wr B hsmall hww hhh hD hB
      arr2.height (le_refl arr2.height)
    rw [hinit] at hfin
    have hend : (arr2.height * arr2.width + 0) * 3 = arr2.data.length := by
      rw [hD]; ring
    have hendB : (arr2.height * arr2.width + 0) * 3 = B.length := by
      rw [hB]; ring
    unfold setPixelsLoop
    rw [hfin]
    congr 1
    rw [show arr2.data.take ((arr2.height * arr2.width + 0) * 3) = arr2.data by
        rw [hend, List.take_length],
      show B.drop ((arr2.height * arr2.width + 0) * 3) = [] by
        rw [hendB, List.drop_length],
      List.append_nil]

/-- Witness for the C7 theorem at concrete sessions and arrays. -/
theorem set_pixels_mismatch_error_and_matching_copy_witness :
    MatrixController.set_pixels witFresh witArrMis =
      (witFresh, some MatrixError.dimensionMismatchError) ∧
    MatrixController.set_pixels witCtrl5 witArrOk =
      ({ witCtrl5 with wrapper := some { wit5 with pixel_buffer := some [1, 2, 3, 4, 5, 6] } },
        none) :=
  set_pixels_mismatch_error_and_matching_copy witFresh witArrMis (by decide)
    witCtrl5 wit5 [9, 9, 9, 9, 9, 9] witArrOk (by rfl) (by rfl) (by decide)
    (by decide) (by decide) (by decide)
    (by
      intro i hi
      have h6 : i < 6 := by simpa [witArrOk] using hi
      interval_cases i <;> decide)

end Hub75
